import Mathlib

/-!
# Shallow embedding of the demo API service (src/app.py)

The service is a single Flask process over three SQLAlchemy entities
(User, Product, Order).  We embed each route handler as a pure Lean
function on an explicit store state `DB`.  Nondeterminism in the source
is made explicit:
* `random.random() < 0.05` (the `simulate_error` helper) becomes a
  Boolean parameter `simErr` of the handler;
* `datetime.utcnow()` becomes a `Nat` parameter `now` (seconds);
* `simulate_delay` / `time.sleep` only spend wall-clock time and have no
  observable effect on state or response, so they have no counterpart;
* the Redis availability flag becomes a Boolean `redisAvail`; the single
  fire-and-forget cache write in `get_users` has no effect on the store
  or the response and is therefore not part of the state.

Python floats carrying prices and totals are embedded as `ℚ`: the
handlers only compare and store them, never perform float arithmetic, so
the ordering semantics is all that matters.  ISO-8601 rendering of a
timestamp is abstracted by `isoStr`.
-/

namespace DemoApi

/-- JSON values as produced by `jsonify`.  Object fields keep the
insertion order of the Python dict literal. -/
inductive Json where
  | null : Json
  | str (s : String) : Json
  | num (q : ℚ) : Json
  | bool (b : Bool) : Json
  | arr (elems : List Json) : Json
  | obj (fields : List (String × Json)) : Json

/-- Lookup in an association list of JSON object fields (first match
wins, as in a Python dict where keys are unique). -/
def lookupField : List (String × Json) → String → Option Json
  | [], _ => none
  | (k, v) :: fs, key => if k = key then some v else lookupField fs key

/-- Field lookup in a JSON object. -/
def Json.lookup : Json → String → Option Json
  | .obj fs, key => lookupField fs key
  | _, _ => none

/-- Elements of a JSON array (empty for non-arrays). -/
def Json.elems : Json → List Json
  | .arr xs => xs
  | _ => []

/-- `jsonify({'error': msg}), code` bodies used by every error branch. -/
def errJson (msg : String) : Json := .obj [("error", .str msg)]

/-- Abstraction of `datetime.isoformat()` applied to our `Nat` clock. -/
def isoStr (t : Nat) : String := toString t

/-- `class User(db.Model)`: id, name, email (unique), role
(default "user"), created_at, last_login. -/
structure User where
  id : Nat
  name : String
  email : String
  role : String
  created_at : Nat
  last_login : Nat
deriving Repr, DecidableEq

/-- `class Product(db.Model)`: id, name, price, category, stock
(default 0), created_at. -/
structure Product where
  id : Nat
  name : String
  price : ℚ
  category : String
  stock : Nat
  created_at : Nat
deriving Repr, DecidableEq

/-- `class Order(db.Model)`: id, user_id, total, status
(default "pending"), created_at. -/
structure Order where
  id : Nat
  user_id : Nat
  total : ℚ
  status : String
  created_at : Nat
deriving Repr, DecidableEq

/-- The relational store: the three tables. -/
structure DB where
  users : List User
  products : List Product
  orders : List Order
deriving Repr, DecidableEq

/-- Auto-assigned integer primary key: one more than the largest id in
the table (SQLite autoincrement behaviour on insert). -/
def nextId (ids : List Nat) : Nat := ids.foldr max 0 + 1

/-- JSON rendering of one user in `get_users` (field order of the dict
literal at src/app.py:138-145). -/
def userJson (u : User) : Json :=
  .obj [("id", .num u.id), ("name", .str u.name), ("email", .str u.email),
        ("role", .str u.role), ("created_at", .str (isoStr u.created_at)),
        ("last_login", .str (isoStr u.last_login))]

/-- JSON rendering of one product in `get_products`
(src/app.py:198-205). -/
def productJson (p : Product) : Json :=
  .obj [("id", .num p.id), ("name", .str p.name), ("price", .num p.price),
        ("category", .str p.category), ("stock", .num p.stock),
        ("created_at", .str (isoStr p.created_at))]

/-- A response: HTTP status code and JSON body. -/
structure Resp where
  status : Nat
  body : Json

/-! ## Seed data (src/app.py:68-85), inserted at startup when the user
table is empty.  Store-assigned ids are 1..4 and 1..5; the seeding
timestamp is taken to be 0. -/

def seedUsers : List User :=
  [⟨1, "John Doe", "john@example.com", "admin", 0, 0⟩,
   ⟨2, "Jane Smith", "jane@example.com", "user", 0, 0⟩,
   ⟨3, "Bob Johnson", "bob@example.com", "user", 0, 0⟩,
   ⟨4, "Alice Brown", "alice@example.com", "manager", 0, 0⟩]

/-- Decimal prices written as exact rationals in cents: `money c` is
`c / 100`, so `money 129999` is the source's `1299.99`. -/
def money (cents : Int) : ℚ := mkRat cents 100

def seedProducts : List Product :=
  [⟨1, "Laptop Pro", money 129999, "Electronics", 45, 0⟩,
   ⟨2, "Wireless Headphones", money 19999, "Electronics", 120, 0⟩,
   ⟨3, "Coffee Maker", money 8999, "Appliances", 30, 0⟩,
   ⟨4, "Smartphone", money 79999, "Electronics", 75, 0⟩,
   ⟨5, "Desk Chair", money 29999, "Furniture", 25, 0⟩]

def seedDB : DB := ⟨seedUsers, seedProducts, []⟩

/-! ## Route handlers -/

/-- `GET /api/health` (src/app.py:103-112).  `redisAvail` is whether the
Redis client was constructible at startup. -/
def health_check (redisAvail : Bool) (now : Nat) : Resp :=
  ⟨200, .obj [("status", .str "healthy"),
              ("timestamp", .str (isoStr now)),
              ("version", .str "1.0.0"),
              ("database", .str "connected"),
              ("redis", .str (if redisAvail then "connected" else "not available"))]⟩

/-- `GET /api/users` (src/app.py:114-149).  `role` is
`request.args.get('role')` (`none` when the parameter is absent); the
source guards the filter with Python truthiness `if role:`, so the empty
string behaves like absence.  `simErr` is the 5% `simulate_error` draw.
The Redis `setex` is fire-and-forget and does not touch the store or the
response. -/
def get_users (simErr : Bool) (role : Option String) (db : DB) : Resp :=
  if simErr then ⟨500, errJson "Database connection failed"⟩
  else
    let users : List User := match role with
      | some r => if r ≠ "" then db.users.filter (fun u => decide (u.role = r)) else db.users
      | none => db.users
    ⟨200, .arr (users.map userJson)⟩

/-- The JSON body of `POST /api/users` as the handler consumes it:
`data['name']`, `data['email']`, `data.get('role', 'user')`.  A field is
`none` when the key is absent. -/
structure UserBody where
  name : Option String
  email : Option String
  role : Option String
deriving Repr, DecidableEq

/-- Raw text of the Python exception surfaced by the 400 branch of
`create_user` / `create_order` (`str(e)`): a `KeyError` for a missing
key, the store's `IntegrityError` text for a uniqueness violation, a
`TypeError` when the body is not a JSON object.  The exact rendering is
abstracted; only the fact that the raw text is passed through matters. -/
def keyErrorText (k : String) : String := k
def integrityErrorText (em : String) : String :=
  "UNIQUE constraint failed: user.email " ++ em
def typeErrorText : String := "NoneType object is not subscriptable"

/-- `POST /api/users` (src/app.py:151-172).  `body = none` models a
request whose `request.get_json()` yields `None` (malformed body), so
the first subscript raises and the handler answers 400.  A missing
`name` or `email` key raises `KeyError` → 400; a duplicate email makes
`db.session.commit()` raise → 400.  Otherwise the user is persisted
with a fresh id and the handler answers 201. -/
def create_user (body : Option UserBody) (now : Nat) (db : DB) : Resp × DB :=
  match body with
  | none => (⟨400, errJson typeErrorText⟩, db)
  | some b =>
    match b.name with
    | none => (⟨400, errJson (keyErrorText "name")⟩, db)
    | some nm =>
      match b.email with
      | none => (⟨400, errJson (keyErrorText "email")⟩, db)
      | some em =>
        if db.users.any (fun u => decide (u.email = em)) then
          (⟨400, errJson (integrityErrorText em)⟩, db)
        else
          let uid := nextId (db.users.map (fun u => u.id))
          let u : User := ⟨uid, nm, em, (b.role.getD "user"), now, now⟩
          (⟨201, .obj [("id", .num uid), ("message", .str "User created successfully")]⟩,
           { db with users := db.users ++ [u] })

/-- Case-insensitive substring test: `Product.category.ilike('%c%')`.
`listPrefixOf n h` is `n` being a prefix of `h`. -/
def listPrefixOf : List Char → List Char → Bool
  | [], _ => true
  | _ :: _, [] => false
  | a :: as, b :: bs => a == b && listPrefixOf as bs

def listSubstr (needle : List Char) : List Char → Bool
  | [] => listPrefixOf needle []
  | h :: t => listPrefixOf needle (h :: t) || listSubstr needle t

def ilikeSub (needle hay : String) : Bool :=
  listSubstr needle.toLower.toList hay.toLower.toList

/-- The query built by `get_products` (src/app.py:187-196): each filter
is applied only when its parsed parameter is truthy — `None` and `0.0`
(and `''` for category) skip the filter. -/
def filterProducts (category : Option String) (minp maxp : Option ℚ)
    (ps : List Product) : List Product :=
  let q1 : List Product := match category with
    | some c => if c ≠ "" then ps.filter (fun p => ilikeSub c p.category) else ps

    | none => ps
  let q2 : List Product := match minp with
    | some m => if m ≠ 0 then q1.filter (fun p => decide (m ≤ p.price)) else q1
    | none => q1
  match maxp with
  | some M => if M ≠ 0 then q2.filter (fun p => decide (p.price ≤ M)) else q2
  | none => q2

/-- `GET /api/products` (src/app.py:174-209).  `minp`/`maxp` are
`request.args.get(..., type=float)`: `none` both when the parameter is
absent and when it is unparseable (Flask yields `None` for either). -/
def get_products (simErr : Bool) (category : Option String) (minp maxp : Option ℚ)
    (db : DB) : Resp :=
  if simErr then ⟨503, errJson "Product service unavailable"⟩
  else ⟨200, .arr ((filterProducts category minp maxp db.products).map productJson)⟩

/-- The JSON body of `POST /api/orders` as the handler consumes it:
`data['userId']` and `data['total']`; `none` when the key is absent. -/
structure OrderBody where
  userId : Option Nat
  total : Option ℚ
deriving Repr, DecidableEq

/-- `POST /api/orders` (src/app.py:211-247).  The `simulate_error` draw
(a 402) happens before the body is read; then `data['userId']` is read
and looked up (`User.query.get`), answering 404 "User not found" when no
row matches; then the Order is built, reading `data['total']` (a missing
key raises → 400), with status forced to "confirmed", and persisted. -/
def create_order (simErr : Bool) (body : Option OrderBody) (now : Nat) (db : DB) :
    Resp × DB :=
  if simErr then (⟨402, errJson "Payment processing failed"⟩, db)
  else
    match body with
    | none => (⟨400, errJson typeErrorText⟩, db)
    | some b =>
      match b.userId with
      | none => (⟨400, errJson (keyErrorText "userId")⟩, db)
      | some uid =>
        match db.users.find? (fun u => decide (u.id = uid)) with
        | none => (⟨404, errJson "User not found"⟩, db)
        | some _ =>
          match b.total with
          | none => (⟨400, errJson (keyErrorText "total")⟩, db)
          | some t =>
            let oid := nextId (db.orders.map (fun o => o.id))
            let o : Order := ⟨oid, uid, t, "confirmed", now⟩
            (⟨201, .obj [("id", .num oid), ("status", .str o.status),
                         ("total", .num t),
                         ("created_at", .str (isoStr now)),
                         ("message", .str "Order placed successfully")]⟩,
             { db with orders := db.orders ++ [o] })

/-- `timedelta(days=7)` in seconds. -/
def WEEK : Nat := 7 * 24 * 3600

/-- `GET /api/analytics` (src/app.py:249-272): counts of all users,
products, orders, and of orders with `created_at >= utcnow() - 7 days`.
`now - WEEK` is the truncated `Nat` subtraction, matching the fact that
our clock starts at 0. -/
def get_analytics (now : Nat) (db : DB) : Resp :=
  ⟨200, .obj [("total_users", .num db.users.length),
              ("total_products", .num db.products.length),
              ("total_orders", .num db.orders.length),
              ("recent_orders",
                .num ((db.orders.filter (fun o => decide (now - WEEK ≤ o.created_at))).length)),
              ("generated_at", .str (isoStr now))]⟩

/-- `GET /api/slow-endpoint` (src/app.py:274-279): sleeps, then a fixed
message. -/
def slow_endpoint : Resp :=
  ⟨200, .obj [("message", .str "This was a slow operation"),
              ("duration", .str "2-5 seconds")]⟩

/-- `@app.errorhandler(404)`: any unmatched path. -/
def not_found : Resp := ⟨404, errJson "Endpoint not found"⟩

/-! ## Requests and the dispatch loop -/

/-- One incoming HTTP request, carrying the outcome of the handler's
`simulate_error` draw where the handler makes one, and the parsed
parameters/body. -/
inductive Request where
  | health : Request
  | getUsers (simErr : Bool) (role : Option String) : Request
  | createUser (body : Option UserBody) : Request
  | getProducts (simErr : Bool) (category : Option String) (minp maxp : Option ℚ) : Request
  | createOrder (simErr : Bool) (body : Option OrderBody) : Request
  | analytics : Request
  | slow : Request
  | unmatched : Request
deriving Repr

/-- Dispatch: the Flask routing table.  `redisAvail` and `now` are
ambient; the store state is threaded through. -/
def handle (redisAvail : Bool) (now : Nat) : Request → DB → Resp × DB
  | .health, db => (health_check redisAvail now, db)
  | .getUsers e role, db => (get_users e role db, db)
  | .createUser body, db => create_user body now db
  | .getProducts e c m M, db => (get_products e c m M db, db)
  | .createOrder e body, db => create_order e body now db
  | .analytics, db => (get_analytics now db, db)
  | .slow, db => (slow_endpoint, db)
  | .unmatched, db => (not_found, db)

/-- A run: a sequence of timestamped requests applied to the store. -/
def run (redisAvail : Bool) : List (Nat × Request) → DB → DB
  | [], db => db
  | (t, r) :: rest, db => run redisAvail rest (handle redisAvail t r db).2

/-- Whether a request hits one of the two POST routes (the only
mutating handlers). -/
def Request.isPost : Request → Bool
  | .createUser _ => true
  | .createOrder _ _ => true
  | _ => false

/-! ## Helper lemmas -/

theorem userJson_role (u : User) : (userJson u).lookup "role" = some (.str u.role) := by
  simp [userJson, Json.lookup, lookupField]

theorem productJson_price (p : Product) :
    (productJson p).lookup "price" = some (.num p.price) := by
  simp [productJson, Json.lookup, lookupField]

theorem create_user_frame (body : Option UserBody) (now : Nat) (db : DB) :
    ∃ nu, (create_user body now db).2.users = db.users ++ nu ∧
      (create_user body now db).2.products = db.products ∧
      (create_user body now db).2.orders = db.orders := by
  rcases body with _ | ⟨nm, em, rl⟩
  · exact ⟨[], by simp [create_user]⟩
  · rcases nm with _ | nm
    · exact ⟨[], by simp [create_user]⟩
    · rcases em with _ | em
      · exact ⟨[], by simp [create_user]⟩
      · by_cases h : db.users.any (fun u => decide (u.email = em)) = true
        · exact ⟨[], by simp [create_user, h]⟩
        · refine ⟨[⟨nextId (db.users.map (fun u => u.id)), nm, em, rl.getD "user", now, now⟩], ?_⟩
          simp [create_user, h]

theorem create_order_frame (e : Bool) (body : Option OrderBody) (now : Nat) (db : DB) :
    ∃ no, (create_order e body now db).2.orders = db.orders ++ no ∧
      (create_order e body now db).2.users = db.users ∧
      (create_order e body now db).2.products = db.products ∧
      ∀ o ∈ no, o.status = "confirmed" := by
  cases e with
  | true => exact ⟨[], by simp [create_order]⟩
  | false =>
    rcases body with _ | ⟨uid, t⟩
    · exact ⟨[], by simp [create_order]⟩
    · rcases uid with _ | uid
      · exact ⟨[], by simp [create_order]⟩
      · cases hfind : db.users.find? (fun u => decide (u.id = uid)) with
        | none => exact ⟨[], by simp [create_order, hfind]⟩
        | some u =>
          rcases t with _ | t
          · exact ⟨[], by simp [create_order, hfind]⟩
          · refine ⟨[⟨nextId (db.orders.map (fun o => o.id)), uid, t, "confirmed", now⟩], ?_⟩
            simp [create_order, hfind]

theorem handle_frame (ra : Bool) (now : Nat) (req : Request) (db : DB) :
    ∃ nu np no,
      (handle ra now req db).2.users = db.users ++ nu ∧
      (handle ra now req db).2.products = db.products ++ np ∧
      (handle ra now req db).2.orders = db.orders ++ no ∧
      ∀ o ∈ no, o.status = "confirmed" := by
  cases req with
  | createUser body =>
    obtain ⟨nu, h1, h2, h3⟩ := create_user_frame body now db
    exact ⟨nu, [], [], h1, by simp [handle, h2], by simp [handle, h3], by simp⟩
  | createOrder e body =>
    obtain ⟨no, h1, h2, h3, h4⟩ := create_order_frame e body now db
    exact ⟨[], [], no, by simp [handle, h2], by simp [handle, h3], h1, h4⟩
  | health => exact ⟨[], [], [], by simp [handle]⟩
  | getUsers e role => exact ⟨[], [], [], by simp [handle]⟩
  | getProducts e c m M => exact ⟨[], [], [], by simp [handle]⟩
  | analytics => exact ⟨[], [], [], by simp [handle]⟩
  | slow => exact ⟨[], [], [], by simp [handle]⟩
  | unmatched => exact ⟨[], [], [], by simp [handle]⟩

theorem handle_get_unchanged (ra : Bool) (now : Nat) (req : Request) (db : DB)
    (h : req.isPost = false) : (handle ra now req db).2 = db := by
  cases req <;> simp_all [Request.isPost, handle]

/-! ## Claims -/

/-- C8: GET /api/health returns status 200 for every request, and the
keys status, timestamp, version, database and redis are all present in
the JSON body; the handler has no failure path. -/
theorem health_always_200_with_keys (redisAvail : Bool) (now : Nat) :
    (health_check redisAvail now).status = 200 ∧
    ((health_check redisAvail now).body.lookup "status").isSome = true ∧
    ((health_check redisAvail now).body.lookup "timestamp").isSome = true ∧
    ((health_check redisAvail now).body.lookup "version").isSome = true ∧
    ((health_check redisAvail now).body.lookup "database").isSome = true ∧
    ((health_check redisAvail now).body.lookup "redis").isSome = true := by
  cases redisAvail <;> simp [health_check, Json.lookup, lookupField]

/-- C10: in POST /api/orders the simulated 5% payment fault is evaluated
before the request body is parsed or the userId validated: whenever it
fires, the response is 402 "Payment processing failed" for every body —
including a malformed one (`none`) or one naming a non-existent userId —
never 404 or 400, and the store is untouched. -/
theorem payment_fault_preempts_validation (body : Option OrderBody) (now : Nat) (db : DB) :
    create_order true body now db = (⟨402, errJson "Payment processing failed"⟩, db) ∧
    (create_order true body now db).1.status ≠ 404 ∧
    (create_order true body now db).1.status ≠ 400 := by
  refine ⟨rfl, ?_, ?_⟩ <;> simp [create_order]

/-- C9: in GET /api/products a min_price or max_price equal to 0 is
treated exactly as if that filter were omitted, because the handler
tests the parsed value for truthiness rather than presence; an
unparseable numeric value yields None, which is the omitted case
(`none`) of this embedding by construction.  In particular max_price=0
does not exclude products with positive price, since the whole response
coincides with the unfiltered one. -/
theorem zero_price_filter_is_omitted (simErr : Bool) (cat : Option String)
    (other : Option ℚ) (db : DB) :
    get_products simErr cat (some 0) other db = get_products simErr cat none other db ∧
    get_products simErr cat other (some 0) db = get_products simErr cat other none db := by
  constructor <;> cases simErr <;> simp [get_products, filterProducts]

/-- C3: for every non-empty role value r, every user object in a 200
response of GET /api/users?role=r has role exactly equal to r (string
equality); with no role parameter, the 200 response lists every user in
the store. -/
theorem role_filter_exact (simErr : Bool) (db : DB) :
    (∀ r, r ≠ "" → (get_users simErr (some r) db).status = 200 →
      ∀ j ∈ (get_users simErr (some r) db).body.elems,
        j.lookup "role" = some (.str r)) ∧
    ((get_users simErr none db).status = 200 →
      (get_users simErr none db).body = .arr (db.users.map userJson)) := by
  cases simErr with
  | true =>
    constructor
    · intro r hr h200
      simp [get_users] at h200
    · intro h200
      simp [get_users] at h200
  | false =>
    constructor
    · intro r hr h200 j hj
      simp [get_users, hr, Json.elems] at hj
      obtain ⟨u, ⟨hu, hur⟩, rfl⟩ := hj
      rw [userJson_role, hur]
    · intro _
      simp [get_users]

/-- Witness for C3 at a concrete run: in the seeded store, filtering by
role "admin" yields user objects whose role field is "admin". -/
theorem role_filter_exact_witness :
    (userJson ⟨1, "John Doe", "john@example.com", "admin", 0, 0⟩).lookup "role"
      = some (.str "admin") :=
  (role_filter_exact false seedDB).1 "admin" (by decide) rfl
    (userJson ⟨1, "John Doe", "john@example.com", "admin", 0, 0⟩) (List.Mem.head _)

/-- Counterexample to C2 as stated: with min_price=1 and max_price=0
both provided, the response is 200 and its first product is Laptop Pro
at price 1299.99, which does not satisfy 1 ≤ p ∧ p ≤ 0 — the provided
zero max_price was silently dropped, not applied. -/
theorem price_filters_claim_counterexample :
    (get_products false none (some 1) (some 0) seedDB).status = 200 ∧
    (get_products false none (some 1) (some 0) seedDB).body.elems.head?
      = some (productJson ⟨1, "Laptop Pro", money 129999, "Electronics", 45, 0⟩) ∧
    (productJson ⟨1, "Laptop Pro", money 129999, "Electronics", 45, 0⟩).lookup "price"
      = some (.num (money 129999)) ∧
    ¬ ((1 : ℚ) ≤ money 129999 ∧ money 129999 ≤ 0) := by
  refine ⟨rfl, rfl, productJson_price _, fun h => absurd h.2 (by decide)⟩

/-- C2 (amended): when both min_price and max_price are provided and
nonzero (Python-truthy), every product object in a 200 response of
GET /api/products has price p with min_price ≤ p ≤ max_price; a
provided value of 0 disables that bound instead (see C9). -/
theorem price_filters_conjunctive (simErr : Bool) (cat : Option String)
    (m M : ℚ) (db : DB) (hm : m ≠ 0) (hM : M ≠ 0)
    (h200 : (get_products simErr cat (some m) (some M) db).status = 200) :
    ∀ j ∈ (get_products simErr cat (some m) (some M) db).body.elems,
      ∃ q, j.lookup "price" = some (.num q) ∧ m ≤ q ∧ q ≤ M := by
  cases simErr with
  | true => simp [get_products] at h200
  | false =>
    intro j hj
    simp [get_products, Json.elems, filterProducts, hm, hM, List.mem_filter] at hj
    obtain ⟨p, hp, rfl⟩ := hj
    exact ⟨p.price, productJson_price p, by tauto, by tauto⟩

/-- Witness for C2 (amended) at a concrete run: filtering the seeded
store by min_price=100, max_price=200 yields Wireless Headphones, whose
price field 199.99 lies in [100, 200]. -/
theorem price_filters_conjunctive_witness :
    ∃ q, (productJson ⟨2, "Wireless Headphones", money 19999, "Electronics", 120, 0⟩).lookup "price"
        = some (.num q) ∧ (100 : ℚ) ≤ q ∧ q ≤ 200 :=
  price_filters_conjunctive false none 100 200 seedDB (by norm_num) (by norm_num) rfl
    (productJson ⟨2, "Wireless Headphones", money 19999, "Electronics", 120, 0⟩)
    (List.Mem.head _)

/-- Counterexample to C1 as stated: userId 9999 references no seeded
user, yet when the simulated payment fault fires the response to
POST /api/orders is 402, not the claimed 404. -/
theorem order_unknown_user_counterexample :
    (seedDB.users.all (fun u => u.id != 9999)) = true ∧
    (create_order true (some ⟨some 9999, some 10⟩) 0 seedDB).1.status = 402 ∧
    (402 : Nat) ≠ 404 := ⟨rfl, rfl, by decide⟩

/-- C1 (amended): for every POST /api/orders whose body contains a
userId referencing no existing User row, the response is 404 with a
body carrying "User not found" whenever the simulated payment fault
does not fire (it is 402 when it does); in all cases the response is
never 201 and the store — in particular the Order table — is left
unchanged. -/
theorem order_unknown_user_404 (simErr : Bool) (b : OrderBody) (uid : Nat)
    (now : Nat) (db : DB) (huid : b.userId = some uid)
    (habs : db.users.all (fun u => u.id != uid) = true) :
    (simErr = false →
      (create_order simErr (some b) now db).1.status = 404 ∧
      (create_order simErr (some b) now db).1.body.lookup "error"
        = some (.str "User not found")) ∧
    (create_order simErr (some b) now db).1.status ≠ 201 ∧
    (create_order simErr (some b) now db).2 = db := by
  have hfind : db.users.find? (fun u => decide (u.id = uid)) = none := by
    rw [List.find?_eq_none]
    intro u hu
    have := List.all_eq_true.mp habs u hu
    simpa using this
  cases simErr with
  | true =>
    exact ⟨by simp, by simp [create_order], rfl⟩
  | false =>
    refine ⟨fun _ => ⟨?_, ?_⟩, ?_, ?_⟩ <;>
      simp [create_order, huid, hfind, Json.lookup, lookupField, errJson]

/-- Witness for C1 (amended) at a concrete run: ordering as the
non-existent user 9999 against the seeded store (no payment fault)
yields 404 with "User not found". -/
theorem order_unknown_user_404_witness :
    (create_order false (some ⟨some 9999, some 10⟩) 0 seedDB).1.status = 404 ∧
    (create_order false (some ⟨some 9999, some 10⟩) 0 seedDB).1.body.lookup "error"
      = some (.str "User not found") :=
  (order_unknown_user_404 false ⟨some 9999, some 10⟩ 9999 0 seedDB rfl (by decide)).1 rfl

/-- C5: POST /api/users returns 201 with the newly assigned id if and
only if the body supplies name and email and the store accepts the row
(no duplicate email); on any missing field or store error it returns
400 whose body carries the raw error text under "error"; no other
status can leave this handler. -/
theorem create_user_status_iff (body : Option UserBody) (now : Nat) (db : DB) :
    ((create_user body now db).1.status = 201 ∨
      (create_user body now db).1.status = 400) ∧
    ((create_user body now db).1.status = 201 ↔
      ∃ b nm em, body = some b ∧ b.name = some nm ∧ b.email = some em ∧
        db.users.all (fun u => u.email != em) = true) ∧
    ((create_user body now db).1.status = 201 →
      (create_user body now db).1.body.lookup "id"
        = some (.num (nextId (db.users.map (fun u => u.id))))) ∧
    ((create_user body now db).1.status = 400 →
      ∃ msg, (create_user body now db).1.body = errJson msg) := by
  rcases body with _ | ⟨nm, em, rl⟩
  · exact ⟨Or.inr rfl, by simp [create_user], by simp [create_user],
      fun _ => ⟨typeErrorText, rfl⟩⟩
  · rcases nm with _ | nm
    · exact ⟨Or.inr rfl, by simp [create_user], by simp [create_user],
        fun _ => ⟨keyErrorText "name", rfl⟩⟩
    · rcases em with _ | em
      · exact ⟨Or.inr rfl, by simp [create_user], by simp [create_user],
          fun _ => ⟨keyErrorText "email", rfl⟩⟩
      · by_cases h : db.users.any (fun u => decide (u.email = em)) = true
        · have hst : (create_user (some ⟨some nm, some em, rl⟩) now db).1.status = 400 := by
            simp [create_user, h]
          refine ⟨Or.inr hst, ?_, ?_, ?_⟩
          · rw [hst]
            constructor
            · intro hc; exact absurd hc (by decide)
            · rintro ⟨b, nm2, em2, hb, hnm, hem, hall⟩
              obtain rfl := Option.some.inj hb
              obtain rfl := Option.some.inj hem
              obtain ⟨u, hu, hue⟩ := List.any_eq_true.mp h
              have h1 : u.email = em := by simpa using hue
              have h2 : u.email ≠ em := by simpa using List.all_eq_true.mp hall u hu
              exact absurd h1 h2
          · intro hc; rw [hst] at hc; exact absurd hc (by decide)
          · intro _; exact ⟨integrityErrorText em, by simp [create_user, h]⟩
        · have hst : (create_user (some ⟨some nm, some em, rl⟩) now db).1.status = 201 := by
            simp [create_user, h]
          refine ⟨Or.inl hst, ?_, ?_, ?_⟩
          · rw [hst]
            constructor
            · intro _
              refine ⟨⟨some nm, some em, rl⟩, nm, em, rfl, rfl, rfl, ?_⟩
              rw [List.all_eq_true]
              intro u hu
              simp only [bne_iff_ne, ne_eq]
              intro he
              exact h (List.any_eq_true.mpr ⟨u, hu, by simp [he]⟩)
            · intro _; rfl
          · intro _
            simp [create_user, h, Json.lookup, lookupField]
          · intro hc; rw [hst] at hc; exact absurd hc (by decide)

/-- Witness for C5 at a concrete run: creating a user with a fresh
email against the seeded store succeeds with 201. -/
theorem create_user_status_iff_witness :
    (create_user (some ⟨some "Carol", some "carol@example.com", none⟩) 7 seedDB).1.status
      = 201 :=
  (create_user_status_iff (some ⟨some "Carol", some "carol@example.com", none⟩) 7 seedDB).2.1.mpr
    ⟨⟨some "Carol", some "carol@example.com", none⟩, "Carol", "carol@example.com",
      rfl, rfl, rfl, by decide⟩

/-- Stores reachable by the service: any store whose Order table is
still empty (the seeded store creates no orders), closed under handling
arbitrary requests. -/
inductive Reachable : DB → Prop where
  | init (db : DB) (h : db.orders = []) : Reachable db
  | step (ra : Bool) (now : Nat) (req : Request) (db : DB) :
      Reachable db → Reachable (handle ra now req db).2

/-- C4: every Order row persisted by POST /api/orders has status
"confirmed" — the handler forces it at creation, unconditionally, and
no other code writes orders — so every Order row of a reachable store
has status "confirmed", never the column default "pending". -/
theorem orders_always_confirmed (db : DB) (h : Reachable db) :
    ∀ o ∈ db.orders, o.status = "confirmed" := by
  induction h with
  | init db h => simp [h]
  | step ra now req db hdb ih =>
    obtain ⟨nu, np, no, hu, hp, ho, hconf⟩ := handle_frame ra now req db
    rw [ho]
    intro o hoo
    rcases List.mem_append.mp hoo with h1 | h2
    · exact ih o h1
    · exact hconf o h2

/-- Witness for C4 at a concrete run: the order persisted by a
successful POST /api/orders against the seeded store has status
"confirmed". -/
theorem orders_always_confirmed_witness :
    (⟨1, 1, 10, "confirmed", 0⟩ : Order).status = "confirmed" :=
  orders_always_confirmed
    (handle false 0 (.createOrder false (some ⟨some 1, some 10⟩)) seedDB).2
    (Reachable.step false 0 (.createOrder false (some ⟨some 1, some 10⟩)) seedDB
      (Reachable.init seedDB rfl))
    ⟨1, 1, 10, "confirmed", 0⟩ (List.Mem.head _)

/-- C6: no handler ever updates or deletes an existing row of User,
Product or Order: after any request, each table equals its previous
contents (identical field values, in place) followed by some possibly
empty batch of new rows, and any non-POST request leaves the store
exactly unchanged — only the POST handlers add rows. -/
theorem handlers_never_update_or_delete (ra : Bool) (now : Nat) (req : Request) (db : DB) :
    (∃ nu, (handle ra now req db).2.users = db.users ++ nu) ∧
    (∃ np, (handle ra now req db).2.products = db.products ++ np) ∧
    (∃ no, (handle ra now req db).2.orders = db.orders ++ no) ∧
    (req.isPost = false → (handle ra now req db).2 = db) := by
  obtain ⟨nu, np, no, hu, hp, ho, -⟩ := handle_frame ra now req db
  exact ⟨⟨nu, hu⟩, ⟨np, hp⟩, ⟨no, ho⟩, handle_get_unchanged ra now req db⟩

/-- Witness for C6 at a concrete run: a GET /api/users request leaves
the seeded store untouched. -/
theorem handlers_never_update_or_delete_witness :
    (handle true 0 (.getUsers false none) seedDB).2 = seedDB :=
  (handlers_never_update_or_delete true 0 (.getUsers false none) seedDB).2.2.2 rfl

theorem analytics_total_users (now : Nat) (db : DB) :
    (get_analytics now db).body.lookup "total_users"
      = some (.num db.users.length) := by
  simp [get_analytics, Json.lookup, lookupField]

theorem analytics_total_products (now : Nat) (db : DB) :
    (get_analytics now db).body.lookup "total_products"
      = some (.num db.products.length) := by
  simp [get_analytics, Json.lookup, lookupField]

theorem analytics_total_orders (now : Nat) (db : DB) :
    (get_analytics now db).body.lookup "total_orders"
      = some (.num db.orders.length) := by
  simp [get_analytics, Json.lookup, lookupField]

theorem run_lengths (ra : Bool) (reqs : List (Nat × Request)) (db : DB) :
    db.users.length ≤ (run ra reqs db).users.length ∧
    db.products.length ≤ (run ra reqs db).products.length ∧
    db.orders.length ≤ (run ra reqs db).orders.length := by
  induction reqs generalizing db with
  | nil => simp [run]
  | cons tr rest ih =>
    obtain ⟨t, r⟩ := tr
    obtain ⟨nu, np, no, hu, hp, ho, -⟩ := handle_frame ra t r db
    have h2 := ih (handle ra t r db).2
    rw [show run ra ((t, r) :: rest) db = run ra rest (handle ra t r db).2 from rfl]
    refine ⟨le_trans ?_ h2.1, le_trans ?_ h2.2.1, le_trans ?_ h2.2.2⟩
    · rw [hu]; simp
    · rw [hp]; simp
    · rw [ho]; simp

/-- The store after one successful order creation against the seed. -/
def dbAfterOrder : DB := (create_order false (some ⟨some 1, some 10⟩) 0 seedDB).2

/-- Counterexample to C7 as stated: in a run where rows are only
created and never removed (here the store does not change at all
between two successive GET /api/analytics calls), the recent_orders
count drops from 1 to 0 as the trailing 7-day window slides past the
only order, so it is not monotonically non-decreasing. -/
theorem analytics_recent_counterexample :
    (get_analytics 604800 dbAfterOrder).body.lookup "recent_orders"
      = some (.num 1) ∧
    (get_analytics 604801 dbAfterOrder).body.lookup "recent_orders"
      = some (.num 0) ∧
    ¬ ((1 : ℚ) ≤ 0) := by
  exact ⟨rfl, rfl, by norm_num⟩

/-- C7 (amended): the three total counts returned by GET /api/analytics
(total_users, total_products, total_orders) are monotonically
non-decreasing across successive calls of any run in which rows are
only created; recent_orders is not monotone, because the trailing
7-day window can slide past old orders even when nothing is removed. -/
theorem analytics_totals_monotone (ra : Bool) (t1 t2 : Nat)
    (reqs : List (Nat × Request)) (db : DB) :
    ∃ u1 p1 o1 u2 p2 o2 : Nat,
      (get_analytics t1 db).body.lookup "total_users" = some (.num u1) ∧
      (get_analytics t1 db).body.lookup "total_products" = some (.num p1) ∧
      (get_analytics t1 db).body.lookup "total_orders" = some (.num o1) ∧
      (get_analytics t2 (run ra reqs db)).body.lookup "total_users" = some (.num u2) ∧
      (get_analytics t2 (run ra reqs db)).body.lookup "total_products" = some (.num p2) ∧
      (get_analytics t2 (run ra reqs db)).body.lookup "total_orders" = some (.num o2) ∧
      u1 ≤ u2 ∧ p1 ≤ p2 ∧ o1 ≤ o2 := by
  obtain ⟨h1, h2, h3⟩ := run_lengths ra reqs db
  exact ⟨db.users.length, db.products.length, db.orders.length,
    (run ra reqs db).users.length, (run ra reqs db).products.length,
    (run ra reqs db).orders.length,
    analytics_total_users t1 db, analytics_total_products t1 db,
    analytics_total_orders t1 db,
    analytics_total_users t2 _, analytics_total_products t2 _,
    analytics_total_orders t2 _, h1, h2, h3⟩

end DemoApi
